import Mathlib

/-!
Verification of the rndreamer chat gateway (pyserver) against its
natural-language specification.  The Python source is shallowly embedded:
`datetime` instants become `Int` milliseconds, the rate limiter's
`defaultdict(list)` becomes a total map `String → List Int`, and fallible
code returns `Except`.
-/

/-- Settings constant `RATE_LIMIT_WINDOW_MS` from `app/config.py` (one hour). -/
def RATE_LIMIT_WINDOW_MS : Int := 3600000

/-- Settings constant `RATE_LIMIT_MAX_REQUESTS` from `app/config.py`. -/
def RATE_LIMIT_MAX_REQUESTS : Nat := 500

/-- Settings constant `MIN_MESSAGE_LENGTH` from `app/config.py`. -/
def MIN_MESSAGE_LENGTH : Nat := 1

/-- Settings constant `MAX_MESSAGE_LENGTH` from `app/config.py`. -/
def MAX_MESSAGE_LENGTH : Nat := 24000

/-- The rate limiter's `self.requests : Dict[str, list]` (a `defaultdict(list)`
in `app/utils.py`), as a total map from keys to recorded instants. -/
def RLState : Type := String → List Int

/-- Assignment `self.requests[key] = l` on the requests map. -/
def updateKey (st : RLState) (key : String) (l : List Int) : RLState :=
  fun k => if k = key then l else st k

/-- `RateLimiter._clean_old_requests` (`app/utils.py`): keep only the
timestamps with `req_time > window_start` where
`window_start = now - timedelta(milliseconds=window_ms)`. -/
def clean_old_requests (st : RLState) (key : String) (window_ms now : Int) : RLState :=
  updateKey st key ((st key).filter (fun req_time => now - window_ms < req_time))

/-- `RateLimiter.check_rate_limit` (`app/utils.py`): purge, then reject when
`len(self.requests[key]) >= max_requests`, otherwise append `now` and admit. -/
def check_rate_limit (st : RLState) (key : String) (max_requests : Nat)
    (window_ms now : Int) : RLState × Bool :=
  let st1 := clean_old_requests st key window_ms now
  if max_requests ≤ (st1 key).length then (st1, false)
  else (updateKey st1 key ((st1 key) ++ [now]), true)

/-- Python `min` over a nonempty list of instants (`0` on `[]`, unreachable
in `get_reset_time` because of its emptiness guard). -/
def listMin : List Int → Int
  | [] => 0
  | x :: xs => xs.foldl min x

/-- `RateLimiter.get_reset_time` (`app/utils.py`): `0` when no timestamps are
recorded for the key; otherwise `int((oldest + window - now).total_seconds())`.
Note that, unlike `get_remaining_requests`, it does NOT purge first.  Python's
`int()` on a float truncates toward zero, hence `Int.tdiv`. -/
def get_reset_time (st : RLState) (key : String) (now : Int) : Int :=
  if (st key).isEmpty then 0
  else ((listMin (st key) + RATE_LIMIT_WINDOW_MS) - now).tdiv 1000

/-- Outcome of the HTTP middleware: the request either proceeds to the route
handler or is rejected with a status code. -/
inductive MiddlewareOutcome where
  | proceeded
  | rejected (status : Nat)
deriving DecidableEq

/-- `rate_limit_middleware` (`app/utils.py`): its whole body is `pass` — it
reads nothing, mutates nothing and raises nothing (so: no raised status). -/
def rate_limit_middleware (st : RLState) : RLState × Option Nat := (st, none)

/-- The `rate_limit` HTTP middleware of `app/main.py`: calls
`rate_limit_middleware(request)` and, when it raises no `HTTPException`,
forwards the request to the route handler (`call_next`). -/
def rate_limit (st : RLState) : RLState × MiddlewareOutcome :=
  match rate_limit_middleware st with
  | (st2, none) => (st2, MiddlewareOutcome.proceeded)
  | (st2, some status) => (st2, MiddlewareOutcome.rejected status)

/-- A requests map whose `global` budget is fully spent: 500 in-window
timestamps (the configured `RATE_LIMIT_MAX_REQUESTS`). -/
def stGlobalFull : RLState :=
  fun k => if k = "global" then List.replicate 500 0 else []

/-- A requests map holding one stale timestamp (instant `0`) for `global`. -/
def stStale : RLState := fun k => if k = "global" then [0] else []

/-- Models CPython's builtin `str.isprintable` per character, exact on the
code points any theorem below touches: code points below U+0020 (all ASCII
control characters, including newline and tab), U+007F (DEL), the C1 controls
U+0080 to U+009F and U+00A0 (no-break space) are not printable; other ASCII
characters are printable.  CPython additionally classifies some higher
separator/format code points as non-printable; no theorem here depends on
those, and this model treats code points above U+00A0 as printable. -/
def charIsPrintable (c : Char) : Bool :=
  decide (0x20 ≤ c.toNat ∧ (c.toNat < 0x7f ∨ 0xa0 < c.toNat))

/-- `sanitize_response` (`app/utils.py`): keep exactly the printable
characters, in order. -/
def sanitize_response (response : String) : String :=
  ⟨response.data.filter charIsPrintable⟩

/-- The ASCII whitespace characters removed by Python's `str.strip()`
(space, tab, newline, carriage return, vertical tab, form feed). -/
def isSpacePy (c : Char) : Bool :=
  c = ' ' || c = '\t' || c = '\n' || c = '\r' || c = '\x0b' || c = '\x0c'

/-- Python `str.strip()`: drop leading and trailing whitespace. -/
def pyStrip (s : String) : String :=
  ⟨((s.data.dropWhile isSpacePy).reverse.dropWhile isSpacePy).reverse⟩

/-- `ChatMessage.validate_content` (`app/models.py`): strip the content, fail
when the stripped length is below `MIN_MESSAGE_LENGTH` or above
`MAX_MESSAGE_LENGTH`, and otherwise return the STRIPPED content. -/
def validate_content (v : String) : Except String String :=
  let content := pyStrip v
  if content.length < MIN_MESSAGE_LENGTH then
    Except.error "Message content cannot be empty"
  else if MAX_MESSAGE_LENGTH < content.length then
    Except.error ("Message is too long (" ++ toString content.length ++
      " characters). Maximum allowed length is 24000 characters.")
  else Except.ok content

/-- `ChatMessage.validate_content_length` (`pyserver/main.py`): fail when the
stripped content is empty or when the UNstripped length exceeds
`MAX_MESSAGE_LENGTH`; on success return the content UNstripped. -/
def validate_content_length (v : String) : Except String String :=
  if pyStrip v = "" then Except.error "Message content cannot be empty"
  else if MAX_MESSAGE_LENGTH < v.length then
    Except.error "Message exceeds maximum length of 24000 characters"
  else Except.ok v

/-- One provider entry of `settings.MODEL_CONFIGS` (`app/config.py`):
the default and fallback model names (temperature and token limits are not
needed by any claim). -/
structure ModelConfig where
  default : String
  fallback : String
deriving DecidableEq

/-- The failure cases of `ChatService._get_model` (`app/services.py`), each an
`HTTPException`: provider missing from `self.models` (503), an invalid
requested model (400, carrying the message and the `valid_models` list), and
a failed model construction (500; the source's blanket `except Exception`
also rewraps its own API_KEY_MISSING exception into this case). -/
inductive GetModelErr where
  | providerNotAvailable
  | invalidModel (message : String) (validModels : List String)
  | modelInitFailed (message : String)
deriving DecidableEq

/-- Python truthiness of the optional `model_name` argument: falsy when
`None` or the empty string. -/
def falsyOpt : Option String → Bool
  | none => true
  | some s => s.isEmpty

/-- The INVALID_MODEL message of `_get_model`: `f"Model '{model_name}' is not
valid for {provider}. Valid models are: {[config['default'],
config['fallback']]}"` (Python renders the list as `['d', 'f']`). -/
def invalid_model_message (provider : String) (cfg : ModelConfig) (m : String) : String :=
  "Model '" ++ m ++ "' is not valid for " ++ provider ++
    ". Valid models are: ['" ++ cfg.default ++ "', '" ++ cfg.fallback ++ "']"

/-- `ChatService._get_model` (`app/services.py`), returning the resolved model
name.  `initialized` is `provider in self.models`; `api_key_present` is the
provider's key check inside the construction branch.  Flow: if the model name
is falsy or not among `[default, fallback]`, then a truthy name raises
INVALID_MODEL and a falsy one resolves to the default-model instance;
otherwise a fresh instance is built for the requested name verbatim. -/
def get_model (provider : String) (initialized api_key_present : Bool)
    (cfg : ModelConfig) (model_name : Option String) : Except GetModelErr String :=
  if initialized = false then
    Except.error GetModelErr.providerNotAvailable
  else if falsyOpt model_name = true
      ∨ (model_name ≠ some cfg.default ∧ model_name ≠ some cfg.fallback) then
    match model_name with
    | some m =>
        if m.isEmpty then Except.ok cfg.default
        else
          Except.error (GetModelErr.invalidModel (invalid_model_message provider cfg m)
            [cfg.default, cfg.fallback])
    | none => Except.ok cfg.default
  else if api_key_present = false then
    Except.error (GetModelErr.modelInitFailed "API key for provider is missing.")
  else Except.ok (model_name.getD cfg.default)

/-- The errors `ChatService.chat` (`app/services.py`) can raise in one body
execution: an `HTTPException` propagated from `_get_model`, the 500 raised
when the fallback invocation also fails, and the 500 raised when fallback is
skipped because the caller pinned the fallback model. -/
inductive ChatErr where
  | http (e : GetModelErr)
  | fallbackFailed (detail : String)
  | invocationFailed (detail : String)
deriving DecidableEq

/-- One execution of the body of `ChatService.chat` (`app/services.py`,
inside the `@retry` decorator).  `invoke` is the provider capability: the
upstream call `model_instance.ainvoke(...)` for a given resolved model name.
Returns the outcome together with the invocation trace: one `(isFallback,
modelName)` entry per upstream call, in order.  Fallback is attempted exactly
when the primary invocation raises and `model is None or model !=
MODEL_CONFIGS[provider]["fallback"]`. -/
def chat_attempt (provider : String) (cfg : ModelConfig)
    (invoke : String → Except String String) (model : Option String) :
    Except ChatErr String × List (Bool × String) :=
  match get_model provider true true cfg model with
  | Except.error e => (Except.error (ChatErr.http e), [])
  | Except.ok m =>
    match invoke m with
    | Except.ok resp => (Except.ok (sanitize_response resp), [(false, m)])
    | Except.error e =>
      if model = none ∨ model ≠ some cfg.fallback then
        match get_model provider true true cfg (some cfg.fallback) with
        | Except.error fe => (Except.error (ChatErr.http fe), [(false, m)])
        | Except.ok m2 =>
          match invoke m2 with
          | Except.ok resp =>
              (Except.ok (sanitize_response resp), [(false, m), (true, m2)])
          | Except.error fe =>
              (Except.error (ChatErr.fallbackFailed
                ("Fallback to " ++ cfg.fallback ++ " failed: " ++ fe)),
               [(false, m), (true, m2)])
      else
        (Except.error (ChatErr.invocationFailed ("Model invocation failed: " ++ e)),
         [(false, m)])

/-- The `@retry(stop=stop_after_attempt(3), ...)` decorator from `tenacity` on
`ChatService.chat`: re-executes the body on any exception until it succeeds or
three attempts are spent; the `retry_error_callback` then swallows the error
and makes the call return `None`.  The fuel argument is the number of attempts
still allowed; traces of all executed attempts are concatenated. -/
def chat_retry (provider : String) (cfg : ModelConfig)
    (invoke : String → Except String String) (model : Option String) :
    Nat → Option String × List (Bool × String)
  | 0 => (none, [])
  | n + 1 =>
    match chat_attempt provider cfg invoke model with
    | (Except.ok c, tr) => (some c, tr)
    | (Except.error _, tr) =>
      if n = 0 then (none, tr)
      else
        let r := chat_retry provider cfg invoke model n
        (r.1, tr ++ r.2)

/-- One chat turn through the decorated `ChatService.chat`: up to three
executions of the body. -/
def chat_turn (provider : String) (cfg : ModelConfig)
    (invoke : String → Except String String) (model : Option String) :
    Option String × List (Bool × String) :=
  chat_retry provider cfg invoke model 3

/-- Number of fallback invocations in a trace. -/
def countFallback (tr : List (Bool × String)) : Nat :=
  (tr.filter (fun p => p.1)).length

/-- A provider capability whose every invocation raises. -/
def alwaysFail : String → Except String String := fun _ => Except.error "boom"

/-- A provider capability raising a distinct message per model, so the two
failures can be told apart in the surfaced error. -/
def splitInvoke : String → Except String String :=
  fun m => Except.error (if m = "A1" then "alpha primary exploded" else "beta fallback exploded")

/-- Message roles (`MessageRole` in `pyserver/main.py` and `app/models.py`). -/
inductive MessageRole where
  | user
  | assistant
  | system
deriving DecidableEq

/-- A `ChatMessage` as consumed by `_convert_messages` (role and content). -/
structure PyMsg where
  role : MessageRole
  content : String
deriving DecidableEq

/-- The LangChain message representations (`HumanMessage`, `AIMessage`,
`SystemMessage`). -/
inductive LCMessage where
  | human (content : String)
  | ai (content : String)
  | system (content : String)
deriving DecidableEq

/-- The `message_map` of `_convert_messages` (`pyserver/main.py`): plain
role-preserving conversion. -/
def roleMap (m : PyMsg) : LCMessage :=
  match m.role with
  | MessageRole.user => LCMessage.human m.content
  | MessageRole.assistant => LCMessage.ai m.content
  | MessageRole.system => LCMessage.system m.content

/-- The per-message step of `_convert_messages` (`pyserver/main.py`): for
gemini, a system message is emitted as a `HumanMessage` combining
`f"{msg.content}\n\nUser: {next_user_msg.content}"`, where `next_user_msg` is
`next((m for m in messages if m.role == USER), None)` — the FIRST user message
of the WHOLE list; without any user message the system content is emitted
alone as a `HumanMessage`.  Every other message maps through `message_map`. -/
def emitMsg (provider : Option String) (full : List PyMsg) (msg : PyMsg) : LCMessage :=
  if provider = some "gemini" ∧ msg.role = MessageRole.system then
    match full.find? (fun m => decide (m.role = MessageRole.user)) with
    | some u => LCMessage.human (msg.content ++ "\n\nUser: " ++ u.content)
    | none => LCMessage.human msg.content
  else roleMap msg

/-- The `for msg in messages` loop of `_convert_messages`, appending one
converted message per input message; `full` stays the whole input list. -/
def convertGo (provider : Option String) (full : List PyMsg) :
    List PyMsg → List LCMessage
  | [] => []
  | msg :: rest => emitMsg provider full msg :: convertGo provider full rest

/-- `_convert_messages(messages, provider)` (`pyserver/main.py`). -/
def convert_messages (messages : List PyMsg) (provider : Option String) :
    List LCMessage :=
  convertGo provider messages messages

/-- Content carried by a converted message. -/
def contentOf : LCMessage → String
  | LCMessage.human c => c
  | LCMessage.ai c => c
  | LCMessage.system c => c

/-- Whether a converted message still carries the system role. -/
def isSystemMsg : LCMessage → Bool
  | LCMessage.system _ => true
  | _ => false

/-- The wire events `stream_response` (`pyserver/main.py`) can emit: a content
frame `data: {"id": ..., "delta": {"content": token}}`, the `data: [DONE]`
end-of-stream frame, and an error frame (emitted by the exception handler,
never by the generator itself). -/
inductive SSEFrame where
  | content (token : String)
  | done
  | errorFrame (message : String)
deriving DecidableEq

/-- The token-streaming path of `stream_response` (`pyserver/main.py`): each
NON-EMPTY upstream token (`if token:`) is emitted as one content frame in
arrival order, then `data: [DONE]` is emitted on normal completion.  If the
upstream fragment source raises after delivering `fragments`, the generator
emits no further frame — no error frame, no `[DONE]` — and re-raises (that is
the second component). -/
def stream_response (fragments : List String) (err : Option String) :
    List SSEFrame × Option String :=
  let contentFrames := (fragments.filter (fun t => !t.isEmpty)).map SSEFrame.content
  match err with
  | none => (contentFrames ++ [SSEFrame.done], none)
  | some e => (contentFrames, some e)

/-- The chat-path body produced by `generic_exception_handler`
(`pyserver/main.py`): the single chunk
`f'data: {{"error": "{error_message}"}}\ndata: [DONE]\n\n'`. -/
def chat_error_body (message : String) : String :=
  "data: \x7b\"error\": \"" ++ message ++ "\"\x7d\ndata: [DONE]\n\n"

/-- Recognizer for the `[DONE]` frame. -/
def isDoneFrame : SSEFrame → Bool
  | SSEFrame.done => true
  | _ => false

/-- Recognizer for error frames. -/
def isErrorFrame : SSEFrame → Bool
  | SSEFrame.errorFrame _ => true
  | _ => false

/-- Recognizer for content frames. -/
def isContentFrame : SSEFrame → Bool
  | SSEFrame.content _ => true
  | _ => false

/-- Whether `pat` occurs at the head of `l`. -/
def startsWithL : List Char → List Char → Bool
  | _, [] => true
  | [], _ :: _ => false
  | c :: cs, p :: ps => decide (c = p) && startsWithL cs ps

/-- Whether `pat` occurs contiguously anywhere in `l`. -/
def containsL : List Char → List Char → Bool
  | [], pat => startsWithL [] pat
  | c :: cs, pat => startsWithL (c :: cs) pat || containsL cs pat

/-- Whether the string `pat` occurs contiguously in `s`. -/
def containsSub (s pat : String) : Bool := containsL s.data pat.data

theorem listMin_mem_aux (xs : List Int) : ∀ a : Int, xs.foldl min a ∈ a :: xs := by
  induction xs with
  | nil => intro a; simp
  | cons x xs ih =>
    intro a
    have h := ih (min a x)
    simp only [List.foldl_cons]
    rcases List.mem_cons.mp h with h1 | h1
    · rcases min_choice a x with hm | hm
      · rw [h1, hm]; simp
      · rw [h1, hm]; simp
    · simp [h1]

theorem listMin_mem (l : List Int) (h : l ≠ []) : listMin l ∈ l := by
  cases l with
  | nil => exact absurd rfl h
  | cons x xs => exact listMin_mem_aux xs x

/-- **C2.** `check_rate_limit` first purges (no timestamp older than
`now - window_ms` survives the call), rejects without recording exactly when
the retained count reaches `max_requests`, and otherwise appends `now` and
admits; with `max_requests = 1` and serialized access, two calls within one
window yield `true` then `false`, and a third call made once the window has
elapsed yields `true` again. -/
theorem c2_check_rate_limit_behavior
    (st : RLState) (key : String) (max_requests : Nat) (window_ms now : Int)
    (hw : 0 < window_ms)
    (st0 : RLState) (k2 : String) (t0 t1 t2 : Int)
    (h0 : st0 k2 = []) (h1 : t1 - window_ms < t0) (h2 : t0 ≤ t2 - window_ms) :
    (∀ t ∈ ((check_rate_limit st key max_requests window_ms now).1 key),
        ¬ t < now - window_ms)
    ∧ ((check_rate_limit st key max_requests window_ms now).2 = false ↔
        max_requests ≤ ((st key).filter (fun r => now - window_ms < r)).length)
    ∧ ((check_rate_limit st key max_requests window_ms now).2 = false →
        (check_rate_limit st key max_requests window_ms now).1 key
          = (st key).filter (fun r => now - window_ms < r))
    ∧ ((check_rate_limit st key max_requests window_ms now).2 = true →
        (check_rate_limit st key max_requests window_ms now).1 key
          = (st key).filter (fun r => now - window_ms < r) ++ [now])
    ∧ (check_rate_limit st0 k2 1 window_ms t0).2 = true
    ∧ (check_rate_limit (check_rate_limit st0 k2 1 window_ms t0).1
        k2 1 window_ms t1).2 = false
    ∧ (check_rate_limit (check_rate_limit (check_rate_limit st0 k2 1 window_ms t0).1
        k2 1 window_ms t1).1 k2 1 window_ms t2).2 = true := by
  have hkey : ∀ (s : RLState) l, updateKey s key l key = l := by
    intro s l; simp [updateKey]
  have hk2 : ∀ (s : RLState) l, updateKey s k2 l k2 = l := by
    intro s l; simp [updateKey]
  have hnot2 : ¬ (t2 - window_ms < t0) := not_lt.mpr h2
  refine ⟨?_, ?_, ?_, ?_, ?_, ?_, ?_⟩
  · intro t ht
    by_cases hle : max_requests ≤ ((clean_old_requests st key window_ms now) key).length
    · simp only [check_rate_limit, if_pos hle] at ht
      simp only [clean_old_requests, hkey] at ht
      have := (List.mem_filter.mp ht).2
      have hlt : now - window_ms < t := by simpa using this
      omega
    · simp only [check_rate_limit, if_neg hle] at ht
      simp only [clean_old_requests, hkey] at ht
      rcases List.mem_append.mp ht with hmem | hmem
      · have := (List.mem_filter.mp hmem).2
        have hlt : now - window_ms < t := by simpa using this
        omega
      · have : t = now := by simpa using hmem
        omega
  · by_cases hle : max_requests ≤ ((clean_old_requests st key window_ms now) key).length
    · simp only [check_rate_limit, if_pos hle]
      simp only [clean_old_requests, hkey] at hle
      simpa using hle
    · simp only [check_rate_limit, if_neg hle]
      simp only [clean_old_requests, hkey] at hle
      simpa using hle
  · intro hfalse
    by_cases hle : max_requests ≤ ((clean_old_requests st key window_ms now) key).length
    · simp only [check_rate_limit, if_pos hle]
      simp only [clean_old_requests, hkey]
    · simp only [check_rate_limit, if_neg hle] at hfalse
      exact Bool.noConfusion hfalse
  · intro htrue
    by_cases hle : max_requests ≤ ((clean_old_requests st key window_ms now) key).length
    · simp only [check_rate_limit, if_pos hle] at htrue
      exact Bool.noConfusion htrue
    · simp only [check_rate_limit, if_neg hle]
      simp only [clean_old_requests, hkey]
  · simp [check_rate_limit, clean_old_requests, hk2, h0, updateKey]
  · simp [check_rate_limit, clean_old_requests, hk2, h0, updateKey, h1]
  · simp [check_rate_limit, clean_old_requests, hk2, h0, updateKey, h1, hnot2]

/-- Witness for `c2_check_rate_limit_behavior` at the configured one-hour
window: calls at instants 0, 1000 and 3600000 milliseconds. -/
theorem c2_witness :
    (0 : Int) < 3600000 ∧ (fun _ : String => ([] : List Int)) "global" = []
    ∧ (1000 : Int) - 3600000 < 0 ∧ (0 : Int) ≤ 3600000 - 3600000
    ∧ ((∀ t ∈ ((check_rate_limit (fun _ => []) "g" 5 3600000 0).1 "g"),
          ¬ t < (0 : Int) - 3600000)
      ∧ ((check_rate_limit (fun _ => []) "g" 5 3600000 0).2 = false ↔
          5 ≤ (((fun _ : String => ([] : List Int)) "g").filter
            (fun r => (0 : Int) - 3600000 < r)).length)
      ∧ ((check_rate_limit (fun _ => []) "g" 5 3600000 0).2 = false →
          (check_rate_limit (fun _ => []) "g" 5 3600000 0).1 "g"
            = ((fun _ : String => ([] : List Int)) "g").filter
                (fun r => (0 : Int) - 3600000 < r))
      ∧ ((check_rate_limit (fun _ => []) "g" 5 3600000 0).2 = true →
          (check_rate_limit (fun _ => []) "g" 5 3600000 0).1 "g"
            = ((fun _ : String => ([] : List Int)) "g").filter
                (fun r => (0 : Int) - 3600000 < r) ++ [0])
      ∧ (check_rate_limit (fun _ => []) "global" 1 3600000 0).2 = true
      ∧ (check_rate_limit (check_rate_limit (fun _ => []) "global" 1 3600000 0).1
          "global" 1 3600000 1000).2 = false
      ∧ (check_rate_limit
          (check_rate_limit (check_rate_limit (fun _ => []) "global" 1 3600000 0).1
            "global" 1 3600000 1000).1 "global" 1 3600000 3600000).2 = true) :=
  ⟨by decide, rfl, by decide, by decide,
    c2_check_rate_limit_behavior (fun _ => []) "g" 5 3600000 0 (by decide)
      (fun _ => []) "global" 0 1000 3600000 rfl (by decide) (by decide)⟩

theorem str_data_append (a b : String) : (a ++ b).data = a.data ++ b.data := by
  cases a; cases b; rfl

theorem startsWithL_self_append (p t : List Char) : startsWithL (p ++ t) p = true := by
  induction p with
  | nil => simp [startsWithL]
  | cons c cs ih => simp [startsWithL, ih]

theorem startsWithL_self (l : List Char) : startsWithL l l = true := by
  simpa using startsWithL_self_append l []

theorem containsL_of_starts (l pat : List Char) (h : startsWithL l pat = true) :
    containsL l pat = true := by
  cases l with
  | nil => simpa [containsL] using h
  | cons c cs => simp [containsL, h]

theorem containsL_append_right (a b pat : List Char) (h : containsL b pat = true) :
    containsL (a ++ b) pat = true := by
  induction a with
  | nil => simpa using h
  | cons c cs ih =>
    simp only [List.cons_append, containsL, Bool.or_eq_true]
    exact Or.inr ih

theorem containsSub_append_right (a b pat : String)
    (h : containsSub b pat = true) : containsSub (a ++ b) pat = true := by
  unfold containsSub at h ⊢
  rw [str_data_append]
  exact containsL_append_right a.data b.data pat.data h

theorem containsSub_self_append (pat t : String) :
    containsSub (pat ++ t) pat = true := by
  unfold containsSub
  rw [str_data_append]
  exact containsL_of_starts _ _ (startsWithL_self_append pat.data t.data)

theorem containsSub_self (s : String) : containsSub s s = true :=
  containsL_of_starts _ _ (startsWithL_self s.data)

set_option maxRecDepth 4096 in
/-- **C1.** The spec requires every chat turn to pass two admission checks
(the `global` key, then the provider key), rejecting the turn when either
fails.  In the code, `rate_limit_middleware` is a bare `pass` and nothing
ever calls `RateLimiter.check_rate_limit`, so the middleware admits every
request without consulting the limiter: even on a state whose global budget
is fully spent — where `check_rate_limit` itself would reject — the request
proceeds and the recorded state is untouched. -/
theorem c1_rate_limit_never_checked :
    (check_rate_limit stGlobalFull "global" RATE_LIMIT_MAX_REQUESTS
        RATE_LIMIT_WINDOW_MS 0).2 = false
    ∧ (rate_limit stGlobalFull).2 = MiddlewareOutcome.proceeded
    ∧ (rate_limit stGlobalFull).1 "global" = stGlobalFull "global" := by
  refine ⟨?_, rfl, rfl⟩
  decide

/-- **C9 counterexample.** `get_reset_time` does not purge before computing:
on a state holding one timestamp at instant 0 for `global`, queried at
instant 3602000 (2 seconds after the one-hour window has elapsed), it
returns -2, a negative number — the claim says the result is never
negative. -/
theorem c9_negative_reset :
    get_reset_time stStale "global" 3602000 = -2
    ∧ get_reset_time stStale "global" 3602000 < 0 := by
  constructor <;> decide

/-- **C9 amended.** `get_reset_time` returns 0 when no timestamps are
recorded for the key, and otherwise the truncated number of seconds until the
oldest RECORDED (not freshly purged) timestamp exits the window; whenever
every recorded timestamp for the key still lies within the window the result
is nonnegative, but a stale recorded timestamp can make it negative because
the method does not purge before computing. -/
theorem c9_reset_time (st : RLState) (key : String) (now : Int)
    (hin : ∀ t ∈ st key, now - t ≤ RATE_LIMIT_WINDOW_MS) :
    ((st key).isEmpty = true → get_reset_time st key now = 0)
    ∧ ((st key).isEmpty = false →
        get_reset_time st key now
          = ((listMin (st key) + RATE_LIMIT_WINDOW_MS) - now).tdiv 1000)
    ∧ 0 ≤ get_reset_time st key now := by
  refine ⟨?_, ?_, ?_⟩
  · intro h; simp [get_reset_time, h]
  · intro h; simp [get_reset_time, h]
  · by_cases h : (st key).isEmpty = true
    · simp [get_reset_time, h]
    · have hb : (st key).isEmpty = false := by
        cases hE : (st key).isEmpty
        · rfl
        · exact absurd hE h
      have hne : st key ≠ [] := by
        intro hnil
        rw [hnil] at hb
        exact Bool.noConfusion hb
      have hmem := listMin_mem (st key) hne
      have hle := hin _ hmem
      have hnonneg : 0 ≤ (listMin (st key) + RATE_LIMIT_WINDOW_MS) - now := by
        have hW : RATE_LIMIT_WINDOW_MS = 3600000 := rfl
        omega
      obtain ⟨n, hn⟩ := Int.eq_ofNat_of_zero_le hnonneg
      simp only [get_reset_time, hb, Bool.false_eq_true, if_false, hn]
      exact Int.ofNat_nonneg _

/-- Witness for `c9_reset_time`: one in-window timestamp, queried one second
after it was recorded. -/
theorem c9_witness :
    (∀ t ∈ stStale "global", (1000 : Int) - t ≤ RATE_LIMIT_WINDOW_MS)
    ∧ (((stStale "global").isEmpty = true → get_reset_time stStale "global" 1000 = 0)
      ∧ ((stStale "global").isEmpty = false →
          get_reset_time stStale "global" 1000
            = ((listMin (stStale "global") + RATE_LIMIT_WINDOW_MS) - 1000).tdiv 1000)
      ∧ 0 ≤ get_reset_time stStale "global" 1000) :=
  ⟨by decide, c9_reset_time stStale "global" 1000 (by decide)⟩

/-- **C10.** `sanitize_response` returns exactly the subsequence of printable
characters of its input, in order: the result is a sublist of the input,
every retained character is printable (in particular no newline and no tab
survives), and the operation is idempotent. -/
theorem c10_sanitize_properties (s : String) :
    List.Sublist (sanitize_response s).data s.data
    ∧ (∀ c ∈ (sanitize_response s).data, charIsPrintable c = true)
    ∧ '\n' ∉ (sanitize_response s).data
    ∧ '\t' ∉ (sanitize_response s).data
    ∧ sanitize_response (sanitize_response s) = sanitize_response s := by
  have hdata : (sanitize_response s).data = s.data.filter charIsPrintable := rfl
  refine ⟨?_, ?_, ?_, ?_, ?_⟩
  · rw [hdata]; exact List.filter_sublist s.data
  · intro c hc
    rw [hdata] at hc
    exact (List.mem_filter.mp hc).2
  · intro hmem
    rw [hdata] at hmem
    exact absurd (List.mem_filter.mp hmem).2 (by decide)
  · intro hmem
    rw [hdata] at hmem
    exact absurd (List.mem_filter.mp hmem).2 (by decide)
  · have hid : (s.data.filter charIsPrintable).filter charIsPrintable
        = s.data.filter charIsPrintable :=
      List.filter_eq_self.mpr (fun a ha => (List.mem_filter.mp ha).2)
    show (⟨(s.data.filter charIsPrintable).filter charIsPrintable⟩ : String)
        = ⟨s.data.filter charIsPrintable⟩
    rw [hid]

/-- Witness for `c10_sanitize_properties` on a payload holding a newline. -/
theorem c10_witness :
    List.Sublist (sanitize_response "a\nb").data ("a\nb" : String).data
    ∧ (∀ c ∈ (sanitize_response "a\nb").data, charIsPrintable c = true)
    ∧ '\n' ∉ (sanitize_response "a\nb").data
    ∧ '\t' ∉ (sanitize_response "a\nb").data
    ∧ sanitize_response (sanitize_response "a\nb") = sanitize_response "a\nb" :=
  c10_sanitize_properties "a\nb"

/-- **C6 counterexample.** The duplicate validator
`ChatMessage.validate_content_length` in `pyserver/main.py` accepts
`"  hello  "` and returns it UNtrimmed, while the claim says the message is
stored/validated as the trimmed `"hello"`. -/
theorem c6_untrimmed_storage :
    validate_content_length "  hello  " = Except.ok "  hello  "
    ∧ ("  hello  " : String) ≠ "hello" := by
  exact ⟨rfl, by decide⟩

/-- **C6 amended.** For the `ChatMessage` of `app/models.py`, validation
succeeds exactly when the trimmed content length lies in
`[MIN_MESSAGE_LENGTH, MAX_MESSAGE_LENGTH]` (hence trimmed length exactly
`MAX_MESSAGE_LENGTH` passes and `MAX_MESSAGE_LENGTH + 1` fails), and any
accepted content is stored trimmed — `"  hello  "` validates as `"hello"`.
The duplicate validator in `pyserver/main.py` instead returns accepted
content untrimmed (`"  hello  "` validates as `"  hello  "`). -/
theorem c6_validation (v : String) :
    ((validate_content v).isOk = true ↔
      MIN_MESSAGE_LENGTH ≤ (pyStrip v).length
        ∧ (pyStrip v).length ≤ MAX_MESSAGE_LENGTH)
    ∧ (validate_content v).toOption.getD (pyStrip v) = pyStrip v
    ∧ validate_content "  hello  " = Except.ok "hello"
    ∧ validate_content_length "  hello  " = Except.ok "  hello  " := by
  refine ⟨⟨?_, ?_⟩, ?_, rfl, rfl⟩
  · intro hok
    by_cases h1 : (pyStrip v).length < MIN_MESSAGE_LENGTH
    · simp [validate_content, h1, Except.isOk, Except.toBool] at hok
    · by_cases h2 : MAX_MESSAGE_LENGTH < (pyStrip v).length
      · simp [validate_content, h1, h2, Except.isOk, Except.toBool] at hok
      · omega
  · intro hin
    have h1 : ¬ (pyStrip v).length < MIN_MESSAGE_LENGTH := by omega
    have h2 : ¬ MAX_MESSAGE_LENGTH < (pyStrip v).length := by omega
    simp [validate_content, h1, h2, Except.isOk, Except.toBool]
  · by_cases h1 : (pyStrip v).length < MIN_MESSAGE_LENGTH
    · simp [validate_content, h1, Except.toOption]
    · by_cases h2 : MAX_MESSAGE_LENGTH < (pyStrip v).length
      · simp [validate_content, h1, h2, Except.toOption]
      · simp [validate_content, h1, h2, Except.toOption]

/-- Witness for `c6_validation` at the content `"hi"`. -/
theorem c6_witness :
    (((validate_content "hi").isOk = true) ↔
      MIN_MESSAGE_LENGTH ≤ (pyStrip "hi").length
        ∧ (pyStrip "hi").length ≤ MAX_MESSAGE_LENGTH)
    ∧ (validate_content "hi").toOption.getD (pyStrip "hi") = pyStrip "hi"
    ∧ validate_content "  hello  " = Except.ok "hello"
    ∧ validate_content_length "  hello  " = Except.ok "  hello  " :=
  c6_validation "hi"

theorem isEmpty_false_of_ne (s : String) (hne : s ≠ "") : s.isEmpty = false := by
  cases hE : s.isEmpty
  · rfl
  · exact absurd ((String.isEmpty_iff s).mp hE) hne

/-- **C7.** `_get_model` resolves no requested model (`None` or `""`) to the
capability's default model; a requested name equal to the default or the
fallback model resolves to that name verbatim; any other requested name fails
with INVALID_MODEL naming exactly the two valid choices, both in the message
and in the `valid_models` payload — in particular requesting `"A3"` against
`default="A1"`, `fallback="A2"` fails naming `['A1', 'A2']`. -/
theorem c7_model_resolution (provider : String) (cfg : ModelConfig) (r m : String)
    (hr : r = cfg.default ∨ r = cfg.fallback) (hrne : r ≠ "")
    (hd : m ≠ cfg.default) (hf : m ≠ cfg.fallback) (hne : m ≠ "") :
    get_model provider true true cfg none = Except.ok cfg.default
    ∧ get_model provider true true cfg (some "") = Except.ok cfg.default
    ∧ get_model provider true true cfg (some r) = Except.ok r
    ∧ get_model provider true true cfg (some m)
        = Except.error (GetModelErr.invalidModel
            (invalid_model_message provider cfg m) [cfg.default, cfg.fallback])
    ∧ get_model "alpha" true true (ModelConfig.mk "A1" "A2") (some "A3")
        = Except.error (GetModelErr.invalidModel
            "Model 'A3' is not valid for alpha. Valid models are: ['A1', 'A2']"
            ["A1", "A2"]) := by
  have hrE : r.isEmpty = false := isEmpty_false_of_ne r hrne
  have hmE : m.isEmpty = false := isEmpty_false_of_ne m hne
  refine ⟨rfl, rfl, ?_, ?_, rfl⟩
  · have hcond : ¬ (falsyOpt (some r) = true
        ∨ (some r ≠ some cfg.default ∧ some r ≠ some cfg.fallback)) := by
      intro hc
      rcases hc with hc | ⟨hb, hcf⟩
      · rw [show falsyOpt (some r) = r.isEmpty from rfl, hrE] at hc
        exact Bool.noConfusion hc
      · rcases hr with h | h
        · exact hb (by rw [h])
        · exact hcf (by rw [h])
    unfold get_model
    rw [if_neg (by simp), if_neg hcond, if_neg (by simp)]
    rfl
  · have hcond : falsyOpt (some m) = true
        ∨ (some m ≠ some cfg.default ∧ some m ≠ some cfg.fallback) :=
      Or.inr ⟨by simpa using hd, by simpa using hf⟩
    unfold get_model
    rw [if_neg (by simp), if_pos hcond]
    show (if m.isEmpty then _ else _) = _
    rw [if_neg (by rw [hmE]; exact Bool.noConfusion)]

/-- Witness for `c7_model_resolution` on the spec's `alpha` scenario. -/
theorem c7_witness :
    (("A2" : String) = "A1" ∨ ("A2" : String) = "A2")
    ∧ ("A2" : String) ≠ ""
    ∧ ("A3" : String) ≠ "A1"
    ∧ ("A3" : String) ≠ "A2"
    ∧ ("A3" : String) ≠ ""
    ∧ (get_model "alpha" true true (ModelConfig.mk "A1" "A2") none = Except.ok "A1"
      ∧ get_model "alpha" true true (ModelConfig.mk "A1" "A2") (some "")
          = Except.ok "A1"
      ∧ get_model "alpha" true true (ModelConfig.mk "A1" "A2") (some "A2")
          = Except.ok "A2"
      ∧ get_model "alpha" true true (ModelConfig.mk "A1" "A2") (some "A3")
          = Except.error (GetModelErr.invalidModel
              (invalid_model_message "alpha" (ModelConfig.mk "A1" "A2") "A3")
              ["A1", "A2"])
      ∧ get_model "alpha" true true (ModelConfig.mk "A1" "A2") (some "A3")
          = Except.error (GetModelErr.invalidModel
              "Model 'A3' is not valid for alpha. Valid models are: ['A1', 'A2']"
              ["A1", "A2"])) :=
  ⟨by decide, by decide, by decide, by decide, by decide,
    c7_model_resolution "alpha" (ModelConfig.mk "A1" "A2") "A2" "A3"
      (by decide) (by decide) (by decide) (by decide) (by decide)⟩

theorem countFallback_append (a b : List (Bool × String)) :
    countFallback (a ++ b) = countFallback a + countFallback b := by
  simp [countFallback, List.filter_append]

theorem chat_attempt_count_le (provider : String) (cfg : ModelConfig)
    (invoke : String → Except String String) (model : Option String) :
    countFallback (chat_attempt provider cfg invoke model).2 ≤ 1 := by
  unfold chat_attempt
  split
  · simp [countFallback]
  · split
    · simp [countFallback]
    · split
      · split
        · simp [countFallback]
        · split
          · simp [countFallback]
          · simp [countFallback]
      · simp [countFallback]

theorem chat_retry_count_le (provider : String) (cfg : ModelConfig)
    (invoke : String → Except String String) (model : Option String) :
    ∀ n, countFallback (chat_retry provider cfg invoke model n).2 ≤ n := by
  intro n
  induction n with
  | zero => exact Nat.le_of_eq rfl
  | succ k ih =>
    have htr := chat_attempt_count_le provider cfg invoke model
    rcases hA : chat_attempt provider cfg invoke model with ⟨r, tr⟩
    have htr2 : countFallback tr ≤ 1 := by rw [hA] at htr; exact htr
    cases r with
    | ok c =>
      have hstep : chat_retry provider cfg invoke model (k + 1) = (some c, tr) := by
        simp [chat_retry, hA]
      rw [hstep]
      exact Nat.le_trans htr2 (Nat.le_add_left 1 k)
    | error e =>
      by_cases hk : k = 0
      · subst hk
        have hstep : chat_retry provider cfg invoke model 1 = (none, tr) := by
          simp [chat_retry, hA]
        rw [hstep]
        exact Nat.le_trans htr2 (by omega)
      · have hstep : chat_retry provider cfg invoke model (k + 1)
            = ((chat_retry provider cfg invoke model k).1,
               tr ++ (chat_retry provider cfg invoke model k).2) := by
          simp [chat_retry, hA, hk]
        rw [hstep]
        show countFallback (tr ++ (chat_retry provider cfg invoke model k).2) ≤ k + 1
        rw [countFallback_append]
        omega

theorem get_model_fallback_resolves (provider : String) (cfg : ModelConfig)
    (hE : cfg.fallback.isEmpty = false) :
    get_model provider true true cfg (some cfg.fallback) = Except.ok cfg.fallback := by
  have hcond : ¬ (falsyOpt (some cfg.fallback) = true
      ∨ (some cfg.fallback ≠ some cfg.default
          ∧ some cfg.fallback ≠ some cfg.fallback)) := by
    intro hc
    rcases hc with hc | ⟨_, hcf⟩
    · rw [show falsyOpt (some cfg.fallback) = cfg.fallback.isEmpty from rfl, hE] at hc
      exact Bool.noConfusion hc
    · exact hcf rfl
  unfold get_model
  rw [if_neg (by simp), if_neg hcond, if_neg (by simp)]
  rfl

theorem get_model_fallback_empty (provider : String) (cfg : ModelConfig)
    (hE : cfg.fallback.isEmpty = true) :
    get_model provider true true cfg (some cfg.fallback) = Except.ok cfg.default := by
  have hcond : falsyOpt (some cfg.fallback) = true
      ∨ (some cfg.fallback ≠ some cfg.default
          ∧ some cfg.fallback ≠ some cfg.fallback) :=
    Or.inl (by rw [show falsyOpt (some cfg.fallback) = cfg.fallback.isEmpty from rfl, hE])
  unfold get_model
  rw [if_neg (by simp), if_pos hcond]
  show (if cfg.fallback.isEmpty then Except.ok cfg.default
      else Except.error (GetModelErr.invalidModel
        (invalid_model_message provider cfg cfg.fallback)
        [cfg.default, cfg.fallback]))
    = Except.ok cfg.default
  rw [if_pos hE]

/-- **C3 counterexample.** With a provider whose every invocation fails and no
pinned model, one decorated chat turn performs THREE fallback invocations
(one per `tenacity` attempt), not at most one: the `@retry` decorator loops
the whole turn body. -/
theorem c3_fallback_retried_three_times :
    countFallback (chat_turn "alpha" (ModelConfig.mk "A1" "A2") alwaysFail none).2 = 3
    ∧ ¬ countFallback (chat_turn "alpha" (ModelConfig.mk "A1" "A2") alwaysFail none).2 ≤ 1 := by
  constructor <;> decide

/-- **C3 amended.** Within one execution of the body of `ChatService.chat`,
at most one fallback invocation occurs; none occurs when the caller pinned
the fallback model; exactly one occurs when no model was requested and the
primary invocation fails.  The `@retry` decorator however re-executes the
body up to three times on failure, so one decorated turn can perform up to
three fallback invocations. -/
theorem c3_fallback_protocol (provider : String) (cfg : ModelConfig)
    (invoke : String → Except String String) (model : Option String)
    (hfail : (invoke cfg.default).isOk = false) :
    countFallback (chat_attempt provider cfg invoke model).2 ≤ 1
    ∧ countFallback (chat_attempt provider cfg invoke (some cfg.fallback)).2 = 0
    ∧ countFallback (chat_attempt provider cfg invoke none).2 = 1
    ∧ countFallback (chat_turn provider cfg invoke model).2 ≤ 3 := by
  refine ⟨chat_attempt_count_le provider cfg invoke model, ?_, ?_, ?_⟩
  · rcases hg : get_model provider true true cfg (some cfg.fallback) with e | mm
    · simp [chat_attempt, hg, countFallback]
    · have hpin : ¬ ((some cfg.fallback : Option String) = none
          ∨ (some cfg.fallback : Option String) ≠ some cfg.fallback) := by
        rintro (h | h)
        · exact Option.noConfusion h
        · exact h rfl
      rcases hi : invoke mm with e2 | c
      · simp [chat_attempt, hg, hi, hpin, countFallback]
      · simp [chat_attempt, hg, hi, countFallback]
  · have hg0 : get_model provider true true cfg none = Except.ok cfg.default := rfl
    rcases hi : invoke cfg.default with e2 | c
    · cases hE : cfg.fallback.isEmpty
      · have hgf := get_model_fallback_resolves provider cfg hE
        rcases hi2 : invoke cfg.fallback with e3 | c3
        · simp [chat_attempt, hg0, hi, hgf, hi2, countFallback]
        · simp [chat_attempt, hg0, hi, hgf, hi2, countFallback]
      · have hgf := get_model_fallback_empty provider cfg hE
        rcases hi2 : invoke cfg.default with e3 | c3
        · simp [chat_attempt, hg0, hi, hgf, hi2, countFallback]
        · simp [chat_attempt, hg0, hi, hgf, hi2, countFallback]
    · rw [hi] at hfail
      exact absurd hfail (by simp [Except.isOk, Except.toBool])
  · exact chat_retry_count_le provider cfg invoke model 3

/-- Witness for `c3_fallback_protocol` with the always-failing capability. -/
theorem c3_witness :
    (alwaysFail "A1").isOk = false
    ∧ (countFallback (chat_attempt "alpha" (ModelConfig.mk "A1" "A2") alwaysFail none).2 ≤ 1
      ∧ countFallback (chat_attempt "alpha" (ModelConfig.mk "A1" "A2") alwaysFail (some "A2")).2 = 0
      ∧ countFallback (chat_attempt "alpha" (ModelConfig.mk "A1" "A2") alwaysFail none).2 = 1
      ∧ countFallback (chat_turn "alpha" (ModelConfig.mk "A1" "A2") alwaysFail none).2 ≤ 3) :=
  ⟨by decide,
    c3_fallback_protocol "alpha" (ModelConfig.mk "A1" "A2") alwaysFail none (by decide)⟩

/-- **C4 counterexample.** Primary model `"A1"` fails with `"alpha primary
exploded"` and fallback `"A2"` fails with `"beta fallback exploded"`: the
surfaced error is `"Fallback to A2 failed: beta fallback exploded"`, which
names neither the primary model `"A1"` nor the primary failure — the claim
says it names both failures. -/
theorem c4_error_omits_primary_failure :
    (chat_attempt "alpha" (ModelConfig.mk "A1" "A2") splitInvoke none).1
      = Except.error (ChatErr.fallbackFailed
          "Fallback to A2 failed: beta fallback exploded")
    ∧ containsSub "Fallback to A2 failed: beta fallback exploded"
        "alpha primary exploded" = false
    ∧ containsSub "Fallback to A2 failed: beta fallback exploded" "A1" = false := by
  refine ⟨rfl, by decide, by decide⟩

/-- **C4 amended.** When the primary invocation fails, no model is pinned and
the fallback invocation also fails, the surfaced error is exactly
`f"Fallback to {fallback_model} failed: {str(fallback_e)}"`: it names the
fallback model and the fallback failure, but not the original primary
failure (which is only logged). -/
theorem c4_fallback_error_detail (provider : String) (cfg : ModelConfig)
    (invoke : String → Except String String) (e fe : String)
    (h1 : invoke cfg.default = Except.error e)
    (h2 : invoke cfg.fallback = Except.error fe)
    (h3 : cfg.fallback.isEmpty = false) :
    (chat_attempt provider cfg invoke none).1
      = Except.error (ChatErr.fallbackFailed
          ("Fallback to " ++ cfg.fallback ++ " failed: " ++ fe))
    ∧ containsSub ("Fallback to " ++ cfg.fallback ++ " failed: " ++ fe) fe = true
    ∧ containsSub ("Fallback to " ++ cfg.fallback ++ " failed: " ++ fe)
        cfg.fallback = true := by
  have hg0 : get_model provider true true cfg none = Except.ok cfg.default := rfl
  have hgf := get_model_fallback_resolves provider cfg h3
  refine ⟨?_, ?_, ?_⟩
  · simp [chat_attempt, hg0, h1, hgf, h2]
  · unfold containsSub
    rw [str_data_append]
    exact containsL_append_right _ _ _
      (containsL_of_starts _ _ (startsWithL_self fe.data))
  · unfold containsSub
    rw [str_data_append, str_data_append, str_data_append,
      List.append_assoc, List.append_assoc]
    exact containsL_append_right _ _ _
      (containsL_of_starts _ _ (startsWithL_self_append _ _))

/-- Witness for `c4_fallback_error_detail` with distinct failure messages. -/
theorem c4_witness :
    splitInvoke "A1" = Except.error "alpha primary exploded"
    ∧ splitInvoke "A2" = Except.error "beta fallback exploded"
    ∧ ("A2" : String).isEmpty = false
    ∧ ((chat_attempt "alpha" (ModelConfig.mk "A1" "A2") splitInvoke none).1
        = Except.error (ChatErr.fallbackFailed
            ("Fallback to " ++ "A2" ++ " failed: " ++ "beta fallback exploded"))
      ∧ containsSub ("Fallback to " ++ "A2" ++ " failed: " ++ "beta fallback exploded")
          "beta fallback exploded" = true
      ∧ containsSub ("Fallback to " ++ "A2" ++ " failed: " ++ "beta fallback exploded")
          "A2" = true) :=
  ⟨rfl, rfl, by decide,
    c4_fallback_error_detail "alpha" (ModelConfig.mk "A1" "A2") splitInvoke
      "alpha primary exploded" "beta fallback exploded" rfl rfl (by decide)⟩

theorem convertGo_eq_map (provider : Option String) (full : List PyMsg) :
    ∀ l, convertGo provider full l = l.map (emitMsg provider full) := by
  intro l
  induction l with
  | nil => rfl
  | cons m rest ih => simp [convertGo, ih]

/-- **C8 counterexample.** For gemini, `_convert_messages` on
`[system "s", user "zz"]` emits the merged frame AND the user message again —
the user content `"zz"` appears twice in the output, though the claim says no
message content is duplicated; and on `[user "aa", system "s", user "bb"]` the
system message is merged with the FIRST user message `"aa"` (which precedes
it), not the next one `"bb"`. -/
theorem c8_duplicated_user_content :
    convert_messages [PyMsg.mk MessageRole.system "s", PyMsg.mk MessageRole.user "zz"]
        (some "gemini")
      = [LCMessage.human "s\n\nUser: zz", LCMessage.human "zz"]
    ∧ containsSub "s\n\nUser: zz" "zz" = true
    ∧ convert_messages [PyMsg.mk MessageRole.user "aa", PyMsg.mk MessageRole.system "s",
        PyMsg.mk MessageRole.user "bb"] (some "gemini")
      = [LCMessage.human "aa", LCMessage.human "s\n\nUser: aa", LCMessage.human "bb"]
    ∧ containsSub "s\n\nUser: aa" "bb" = false := by
  refine ⟨rfl, by decide, rfl, by decide⟩

/-- **C8 amended.** For gemini, `_convert_messages` emits exactly one output
message per input message, in input order (it equals a position-wise map);
no output message carries the unsupported system role; and no system
message's content is dropped — it is concatenated (with the separator
`"\n\nUser: "`) with the content of the FIRST user message of the whole list
(or emitted alone when there is none) as a user-role message.  The user
message so merged is still emitted at its own position, so its content is
duplicated. -/
theorem c8_gemini_adaptation (msgs : List PyMsg) :
    convert_messages msgs (some "gemini") = msgs.map (emitMsg (some "gemini") msgs)
    ∧ (convert_messages msgs (some "gemini")).length = msgs.length
    ∧ (∀ out ∈ convert_messages msgs (some "gemini"), isSystemMsg out = false)
    ∧ (∀ m ∈ msgs, m.role = MessageRole.system →
        ∃ out ∈ convert_messages msgs (some "gemini"),
          containsSub (contentOf out) m.content = true) := by
  have hmap := convertGo_eq_map (some "gemini") msgs msgs
  have hcm : convert_messages msgs (some "gemini")
      = msgs.map (emitMsg (some "gemini") msgs) := hmap
  refine ⟨hcm, ?_, ?_, ?_⟩
  · rw [hcm, List.length_map]
  · intro out hout
    rw [hcm] at hout
    obtain ⟨m, hm, rfl⟩ := List.mem_map.mp hout
    unfold emitMsg
    by_cases hs : (some "gemini" : Option String) = some "gemini"
        ∧ m.role = MessageRole.system
    · rw [if_pos hs]
      cases hfind : msgs.find? (fun x => decide (x.role = MessageRole.user)) with
      | none => rfl
      | some u => rfl
    · rw [if_neg hs]
      unfold roleMap
      cases hr : m.role with
      | user => rfl
      | assistant => rfl
      | system => exact absurd ⟨rfl, hr⟩ hs
  · intro m hm hrole
    refine ⟨emitMsg (some "gemini") msgs m, ?_, ?_⟩
    · rw [hcm]
      exact List.mem_map_of_mem _ hm
    · unfold emitMsg
      rw [if_pos ⟨rfl, hrole⟩]
      cases hfind : msgs.find? (fun x => decide (x.role = MessageRole.user)) with
      | none => exact containsSub_self m.content
      | some u =>
        show containsSub (m.content ++ "\n\nUser: " ++ u.content) m.content = true
        unfold containsSub
        rw [str_data_append, str_data_append, List.append_assoc]
        exact containsL_of_starts _ _ (startsWithL_self_append _ _)

/-- Witness for `c8_gemini_adaptation` on `[system "s", user "zz"]`. -/
theorem c8_witness :
    convert_messages [PyMsg.mk MessageRole.system "s", PyMsg.mk MessageRole.user "zz"]
        (some "gemini")
      = [PyMsg.mk MessageRole.system "s", PyMsg.mk MessageRole.user "zz"].map
          (emitMsg (some "gemini")
            [PyMsg.mk MessageRole.system "s", PyMsg.mk MessageRole.user "zz"])
    ∧ (convert_messages [PyMsg.mk MessageRole.system "s", PyMsg.mk MessageRole.user "zz"]
        (some "gemini")).length
      = ([PyMsg.mk MessageRole.system "s", PyMsg.mk MessageRole.user "zz"] : List PyMsg).length
    ∧ (∀ out ∈ convert_messages
          [PyMsg.mk MessageRole.system "s", PyMsg.mk MessageRole.user "zz"] (some "gemini"),
        isSystemMsg out = false)
    ∧ (∀ m ∈ ([PyMsg.mk MessageRole.system "s", PyMsg.mk MessageRole.user "zz"] : List PyMsg),
        m.role = MessageRole.system →
        ∃ out ∈ convert_messages
            [PyMsg.mk MessageRole.system "s", PyMsg.mk MessageRole.user "zz"] (some "gemini"),
          containsSub (contentOf out) m.content = true) :=
  c8_gemini_adaptation [PyMsg.mk MessageRole.system "s", PyMsg.mk MessageRole.user "zz"]

theorem no_done_in_content (l : List String) :
    (l.map SSEFrame.content).filter isDoneFrame = [] := by
  induction l with
  | nil => rfl
  | cons x xs ih => simp [isDoneFrame, ih]

theorem no_error_in_content (l : List String) :
    (l.map SSEFrame.content).filter isErrorFrame = [] := by
  induction l with
  | nil => rfl
  | cons x xs ih => simp [isErrorFrame, ih]

/-- **C5 counterexample.** On upstream fragments `["Hel", "", "lo"]` the
generator emits TWO content frames, not one per fragment (the empty fragment
is skipped by the `if token:` guard); and when the fragment source raises
after delivering `["Hel"]`, the generator's own emitted sequence holds
neither a `[DONE]` frame nor an error frame — it ends with no terminal
marker and re-raises. -/
theorem c5_empty_fragment_and_missing_terminator :
    ((stream_response ["Hel", "", "lo"] none).1.filter isContentFrame).length = 2
    ∧ ¬ ((stream_response ["Hel", "", "lo"] none).1.filter isContentFrame).length
        = (["Hel", "", "lo"] : List String).length
    ∧ stream_response ["Hel"] (some "upstream failed")
        = ([SSEFrame.content "Hel"], some "upstream failed")
    ∧ ((stream_response ["Hel"] (some "upstream failed")).1.filter isDoneFrame).length = 0
    ∧ ((stream_response ["Hel"] (some "upstream failed")).1.filter isErrorFrame).length = 0 := by
  refine ⟨by decide, by decide, rfl, by decide, by decide⟩

/-- **C5 amended.** On the token-streaming path, the emitted wire sequence
holds one content frame per NON-EMPTY upstream fragment, in upstream order;
on normal completion it is terminated by exactly one `[DONE]` frame and holds
no error frame (`["Hel", "lo"]` gives exactly two content frames then one
`[DONE]`).  If the fragment source raises, the generator emits only the
content frames of the already delivered non-empty fragments — no error frame
and no `[DONE]` — and propagates the exception; the application-level
exception handler then answers chat-path requests with the single chunk
`data: {"error": ...}\ndata: [DONE]\n\n`, which does carry the `[DONE]`
marker. -/
theorem c5_stream_framing (fragments : List String) (e msg : String) :
    (stream_response fragments none).1
      = (fragments.filter (fun t => !t.isEmpty)).map SSEFrame.content ++ [SSEFrame.done]
    ∧ ((stream_response fragments none).1.filter isDoneFrame).length = 1
    ∧ ((stream_response fragments none).1.filter isErrorFrame).length = 0
    ∧ (stream_response fragments none).2 = none
    ∧ (stream_response fragments (some e)).1
      = (fragments.filter (fun t => !t.isEmpty)).map SSEFrame.content
    ∧ ((stream_response fragments (some e)).1.filter isDoneFrame).length = 0
    ∧ ((stream_response fragments (some e)).1.filter isErrorFrame).length = 0
    ∧ (stream_response fragments (some e)).2 = some e
    ∧ containsSub (chat_error_body msg) "data: [DONE]" = true
    ∧ stream_response ["Hel", "lo"] none
      = ([SSEFrame.content "Hel", SSEFrame.content "lo", SSEFrame.done], none) := by
  refine ⟨rfl, ?_, ?_, rfl, rfl, ?_, ?_, rfl, ?_, rfl⟩
  · show ((((fragments.filter (fun t => !t.isEmpty)).map SSEFrame.content)
        ++ [SSEFrame.done]).filter isDoneFrame).length = 1
    rw [List.filter_append, no_done_in_content]
    rfl
  · show ((((fragments.filter (fun t => !t.isEmpty)).map SSEFrame.content)
        ++ [SSEFrame.done]).filter isErrorFrame).length = 0
    rw [List.filter_append, no_error_in_content]
    rfl
  · show (((fragments.filter (fun t => !t.isEmpty)).map
        SSEFrame.content).filter isDoneFrame).length = 0
    rw [no_done_in_content]
    rfl
  · show (((fragments.filter (fun t => !t.isEmpty)).map
        SSEFrame.content).filter isErrorFrame).length = 0
    rw [no_error_in_content]
    rfl
  · unfold chat_error_body containsSub
    rw [str_data_append, str_data_append, List.append_assoc]
    apply containsL_append_right
    apply containsL_append_right
    decide
